import Mathlib

/-!
Verification development for the `godms` NTCIP 1203 dynamic-message-sign client.

The Go sources are embedded shallowly:

* Transport values (Go interface values carried by SNMP vars) become the
  tagged type `GoValue`; a failed Go type assertion or an out-of-bounds slice
  index becomes the distinguished `GoResult.panicked` outcome.
* The SNMP transport (`dms.Get`, `dms.Set`) and the external formatter
  (`ntcip.Format`) are modelled as an arbitrary behaviour `Env`: response
  streams indexed by the sequence number of the call.  Each dialog threads a
  state `St` counting the calls made so far and recording the ordered trace of
  transport events it issued.
* Go errors become the inductive `GoErr`; `errors.Wrap` is `GoErr.wrap`, an
  error value with message `s` (from `errors.New` or a collaborator) is
  `GoErr.base s`, and the two `fmt.Errorf` sites of the dialogs get dedicated
  constructors carrying their formatted payloads.
-/

set_option maxRecDepth 100000

namespace Godms

/-- A dynamically typed value carried by the transport (a Go interface value):
`nil`, an `int`, a `[]uint8` (equivalently a Go string of those bytes), or a
Go `string`. -/
inductive GoValue where
  | vnil
  | vint (n : Int)
  | vbytes (bs : List Nat)
  | vstr (s : String)
  deriving DecidableEq, Repr

/-- One SNMP variable of a response (`gosnmp.SnmpPDU` as returned by `Get`):
its object identifier and its value. -/
structure Variable where
  name : String
  value : GoValue
  deriving DecidableEq, Repr

/-- A successful transport `Get` response: the list of returned vars. -/
structure GetResp where
  vars : List Variable
  deriving DecidableEq, Repr

/-- A successful transport `Set` response; `errorCode` is the PDU-level SNMP
error status (`gosnmp.NoError = 0`). -/
structure SetResp where
  errorCode : Nat
  deriving DecidableEq, Repr

/-- The ASN.1 wire type attached to a write request (`gosnmp.Asn1BER`).
Syntaxes looked up from the external `gontcip` parameter catalogue are kept
opaque, keyed by the catalogue object's name. -/
inductive Asn1 where
  | integer
  | fromCatalogue (objectName : String)
  deriving DecidableEq, Repr

/-- A write request (`gosnmp.SnmpPDU` as passed to `Set`). -/
structure Pdu where
  value : GoValue
  name : String
  ty : Asn1
  deriving DecidableEq, Repr

/-- An observable transport event issued by a dialog, in order. -/
inductive Event where
  | getEv (oids : List String)
  | setEv (pdus : List Pdu)
  | sleepEv (seconds : Nat)
  deriving DecidableEq, Repr

/-- A Go error value as produced by the dialogs. -/
inductive GoErr where
  /-- an error value whose message is `s` (`errors.New`, or an error returned
  by the transport / a collaborator). -/
  | base (s : String)
  /-- `errors.Wrap(cause, context)`. -/
  | wrap (context : String) (cause : GoErr)
  /-- `fmt.Errorf("message status parameter returns wrong value: %d. expect: %d", got, expected)`. -/
  | statusWrongValue (got expected : Int)
  /-- `fmt.Errorf("activate message failed: %v", details)`. -/
  | activateMsgFailed (details : List String)
  deriving DecidableEq, Repr

/-- Outcome of a Go function returning `(α, error)`: a normal return carrying
the value and the (possibly nil) error, or a runtime panic (out-of-bounds
index, failed type assertion). -/
inductive GoResult (α : Type) where
  | ret (val : α) (err : Option GoErr)
  | panicked (msg : String)
  deriving DecidableEq, Repr

/-- A transport behaviour: the outcome of connecting, and the response to the
`k`-th `Get` call, the `k`-th `Set` call, and the `k`-th `ntcip.Format` call
made during one dialog invocation.  `Except.error s` is a transport error
whose message is `s`. -/
structure Env where
  connectErr : Option String
  getR : Nat → Except String GetResp
  setR : Nat → Except String SetResp
  formatR : Nat → Except String (List String)

/-- Dialog-local instrumentation state: number of `Get`, `Set` and `Format`
calls made so far, and the ordered trace of transport events. -/
structure St where
  g : Nat
  s : Nat
  f : Nat
  tr : List Event
  deriving DecidableEq, Repr

/-- The state at the start of a dialog invocation. -/
def st0 : St := ⟨0, 0, 0, []⟩

/-- Issue a batched `dms.Get`. -/
def doGet (env : Env) (st : St) (oids : List String) : St × Except String GetResp :=
  (⟨st.g + 1, st.s, st.f, st.tr ++ [Event.getEv oids]⟩, env.getR st.g)

/-- Issue a batched `dms.Set`. -/
def doSet (env : Env) (st : St) (pdus : List Pdu) : St × Except String SetResp :=
  (⟨st.g, st.s + 1, st.f, st.tr ++ [Event.setEv pdus]⟩, env.setR st.s)

/-- Invoke the external `ntcip.Format` on the short-error-status value; the
collaborator returns a formatted `[]string` or an error. -/
def doFormat (env : Env) (st : St) : St × Except String (List String) :=
  (⟨st.g, st.s, st.f + 1, st.tr⟩, env.formatR st.f)

/-- `strings.Contains s pat`. -/
def goContains (s pat : String) : Bool :=
  decide (pat.toList <:+: s.toList)

/-- The `".t.n"` index suffix produced by the catalogue's
`Identifier(messageMemoryType, messageNumber)` (`fmt.Sprintf` with `%d`). -/
def idx2 (t n : Int) : String := toString t ++ "." ++ toString n

/-- `ntcip.DmsMessageMultiString.Identifier(t, n)`. -/
def dmsMessageMultiStringId (t n : Int) : String :=
  "dmsMessageMultiString." ++ idx2 t n

/-- `ntcip.DmsMessageBeacon.Identifier(t, n)`. -/
def dmsMessageBeaconId (t n : Int) : String :=
  "dmsMessageBeacon." ++ idx2 t n

/-- `ntcip.DmsMessagePixelService.Identifier(t, n)`. -/
def dmsMessagePixelServiceId (t n : Int) : String :=
  "dmsMessagePixelService." ++ idx2 t n

/-- `ntcip.DmsMessageOwner.Identifier(t, n)`. -/
def dmsMessageOwnerId (t n : Int) : String :=
  "dmsMessageOwner." ++ idx2 t n

/-- `ntcip.DmsMessageRunTimePriority.Identifier(t, n)`. -/
def dmsMessageRunTimePriorityId (t n : Int) : String :=
  "dmsMessageRunTimePriority." ++ idx2 t n

/-- `ntcip.DmsMessageStatus.Identifier(t, n)`. -/
def dmsMessageStatusId (t n : Int) : String :=
  "dmsMessageStatus." ++ idx2 t n

/-- `ntcip.DmsActivateMessage.Identifier()` with the `.0` instance suffix. -/
def dmsActivateMessageId : String := "dmsActivateMessage.0"

/-- `ntcip.ShortErrorStatus.Identifier()`. -/
def shortErrorStatusId : String := "shortErrorStatus.0"

/-- NTCIP 1203 `dmsMessageStatus` enumeration value `modifying(2)`
(`ntcip.Modifying.Int()`). -/
def modifyingInt : Int := 2

/-- NTCIP 1203 `dmsMessageStatus` enumeration value `valid(4)`
(`ntcip.Valid.Int()`). -/
def validInt : Int := 4

/-- NTCIP 1203 `dmsMessageStatus` enumeration value `modifyReq(6)`
(`ntcip.ModifyReq.Int()`). -/
def modifyReqInt : Int := 6

/-- NTCIP 1203 `dmsMessageStatus` enumeration value `validateReq(7)`
(`ntcip.ValidateReq.Int()`). -/
def validateReqInt : Int := 7

/-- The zero value of `gosnmp.SnmpPDU` as returned by `GetSingleOID` alongside
an error. -/
def zeroVariable : Variable := ⟨"", GoValue.vnil⟩

/-- `GetSingleOID` (package `godms`): one `Get` of a single object identifier;
if the call succeeds but the first variable's value is nil, one further `Get`
of the same identifier; then a `NoSuchName` error if the first variable's name
of the final response does not contain the identifier, and otherwise that
variable.  Element 0 of the response's variable list is accessed without any
emptiness guard, so an empty variable list is a runtime panic. -/
def getSingleOID (env : Env) (st : St) (oid : String) : St × GoResult Variable :=
  match doGet env st [oid] with
  | (st1, Except.error e) => (st1, GoResult.ret zeroVariable (some (GoErr.base e)))
  | (st1, Except.ok pr) =>
    match pr.vars with
    | [] => (st1, GoResult.panicked "index out of range")
    | v :: _ =>
      if v.value = GoValue.vnil then
        match doGet env st1 [oid] with
        | (st2, Except.error e) => (st2, GoResult.ret zeroVariable (some (GoErr.base e)))
        | (st2, Except.ok pr2) =>
          match pr2.vars with
          | [] => (st2, GoResult.panicked "index out of range")
          | w :: _ =>
            if goContains w.name oid then (st2, GoResult.ret w none)
            else (st2, GoResult.ret zeroVariable (some (GoErr.base "NoSuchName")))
      else
        if goContains v.name oid then (st1, GoResult.ret v none)
        else (st1, GoResult.ret zeroVariable (some (GoErr.base "NoSuchName")))

/-! ## The activation-code encoder (spec-modelled) -/

/-- Split a character list at the dots, as Go's dotted-decimal address
splitting does. -/
def splitDots : List Char → List (List Char)
  | [] => [[]]
  | c :: rest =>
    if c = '.' then [] :: splitDots rest
    else
      match splitDots rest with
      | [] => [[c]]
      | g :: gs => (c :: g) :: gs

/-- Decimal value of a digit run; `none` when a non-digit occurs. -/
def digitsValAux : List Char → Nat → Option Nat
  | [], acc => some acc
  | c :: rest, acc =>
    if c.isDigit then digitsValAux rest (acc * 10 + (c.toNat - 48))
    else none

/-- Parse one dotted-decimal octet: nonempty, all digits, value at most 255. -/
def parseOctet (cs : List Char) : Option Nat :=
  match cs with
  | [] => none
  | _ =>
    match digitsValAux cs 0 with
    | some n => if n ≤ 255 then some n else none
    | none => none

/-- Parse an IPv4 dotted-decimal address into its four octets. -/
def parseIPv4 (s : String) : Option (List Nat) :=
  match (splitDots s.toList).mapM parseOctet with
  | some parts => if parts.length = 4 then some parts else none
  | none => none

/-- One shift step of the reflected CRC-16 with polynomial `0x8408`. -/
def crcShift (crc : Nat) : Nat :=
  if crc % 2 = 1 then (crc / 2) ^^^ 0x8408 else crc / 2

/-- Iterate `crcShift`. -/
def crcBits : Nat → Nat → Nat
  | 0, crc => crc
  | k + 1, crc => crcBits k (crcShift crc)

/-- Feed one byte into the CRC register. -/
def crcByte (crc b : Nat) : Nat := crcBits 8 (crc ^^^ (b % 256))

/-- CRC-16/X-25: reflected polynomial `0x8408`, initial value `0xFFFF`, final
xor `0xFFFF`. -/
def crc16X25 (bs : List Nat) : Nat := (bs.foldl crcByte 0xFFFF) ^^^ 0xFFFF

/-- High byte of a 16-bit value. -/
def byteHi (x : Nat) : Nat := (x / 256) % 256

/-- Low byte of a 16-bit value. -/
def byteLo (x : Nat) : Nat := x % 256

/-- Modelled from the spec: `EncodeActivateMessageCode` (its source file,
`dialogs/activatecode.go`, is absent from the sources; only its test and its
caller `ActivatingMessage` are present).  Per spec sections 4.1 and 6 the
output is 12 bytes — 2 bytes duration big-endian, 1 byte priority, 1 byte
memory type, 2 bytes message number big-endian, 2 bytes checksum, 4 requester
IPv4 octets in address order — failing on an unparsable requester address or
on duration/priority/messageNumber exceeding their field widths.  The
checksum algorithm is derived from the spec's conformance fixture: CRC-16/X-25
over the MULTI text bytes followed by the beacon and pixel-service flag bytes,
emitted least-significant byte first (this reproduces the fixture's `95 F9`).
The MULTI string parameter is represented by its byte sequence. -/
def EncodeActivateMessageCode (multiString : List Nat) (beacon pixelService : Int)
    (messageMemoryType duration priority messageNumber : Int)
    (requestIPAddress : String) : Except String (List Nat) :=
  if duration < 0 ∨ 65536 ≤ duration then Except.error "duration out of range"
  else if priority < 0 ∨ 256 ≤ priority then Except.error "priority out of range"
  else if messageNumber < 0 ∨ 65536 ≤ messageNumber then
    Except.error "message number out of range"
  else
    match parseIPv4 requestIPAddress with
    | none => Except.error "invalid request ip address"
    | some octets =>
      let crc := crc16X25 (multiString ++ [beacon.toNat % 256, pixelService.toNat % 256])
      Except.ok ([byteHi duration.toNat, byteLo duration.toNat,
        priority.toNat % 256, messageMemoryType.toNat % 256,
        byteHi messageNumber.toNat, byteLo messageNumber.toNat,
        byteLo crc, byteHi crc] ++ octets)

/-- The byte sequence of the test fixture's MULTI string
`"[jp3]TEST [fl]Flashing[/fl]"`. -/
def fixtureMulti : List Nat :=
  "[jp3]TEST [fl]Flashing[/fl]".toList.map Char.toNat

/-! ## The Activating dialog -/

/-- Outcome of `ActivatingMessage`'s loop over the variables of the initial
batched response. -/
inductive VarsOutcome where
  | done (multiStr : List Nat) (beacon pixelService : Int)
  | noAvailable
  | panicked (msg : String)
  deriving DecidableEq, Repr

/-- The `switch variable.Name` loop of `ActivatingMessage`: each expected name
stores the variable's value through an unchecked type assertion
(`[]uint8` for the MULTI string and `int` for the two flags — any other
dynamic type panics), and any other name returns the
`"no avaliable results"` outcome. -/
def procVars (msId bId psId : String) (ms : List Nat) (b ps : Int) :
    List Variable → VarsOutcome
  | [] => VarsOutcome.done ms b ps
  | v :: rest =>
    if v.name = msId then
      match v.value with
      | GoValue.vbytes bs => procVars msId bId psId bs b ps rest
      | _ => VarsOutcome.panicked "interface conversion"
    else if v.name = bId then
      match v.value with
      | GoValue.vint k => procVars msId bId psId ms k ps rest
      | _ => VarsOutcome.panicked "interface conversion"
    else if v.name = psId then
      match v.value with
      | GoValue.vint k => procVars msId bId psId ms b k rest
      | _ => VarsOutcome.panicked "interface conversion"
    else VarsOutcome.noAvailable

/-- `ActivatingMessage`: batched read of MULTI string / beacon / pixel
service, activation-code encoding, the activation `Set`, then a branch on the
SNMP error status of the `Set` response: `noError` leads to one
short-error-status read (with formatting of a non-nil value), anything else to
the unimplemented-diagnosis placeholder error `"TO-DO"`. -/
def activatingMessage (env : Env)
    (duration priority messageMemoryType messageNumber : Int) : St × GoResult Unit :=
  match env.connectErr with
  | some e => (st0, GoResult.ret () (some (GoErr.base e)))
  | none =>
    let msId := dmsMessageMultiStringId messageMemoryType messageNumber
    let bId := dmsMessageBeaconId messageMemoryType messageNumber
    let psId := dmsMessagePixelServiceId messageMemoryType messageNumber
    match doGet env st0 [msId, bId, psId] with
    | (st1, Except.error e) =>
      (st1, GoResult.ret () (some (GoErr.wrap "get dms failed" (GoErr.base e))))
    | (st1, Except.ok resp) =>
      match procVars msId bId psId [] 0 0 resp.vars with
      | VarsOutcome.panicked m => (st1, GoResult.panicked m)
      | VarsOutcome.noAvailable =>
        (st1, GoResult.ret () (some (GoErr.base "no avaliable results")))
      | VarsOutcome.done ms b ps =>
        match EncodeActivateMessageCode ms b ps
            messageMemoryType duration priority messageNumber "127.0.0.1" with
        | Except.error e =>
          (st1, GoResult.ret () (some (GoErr.wrap "encode activate message failed" (GoErr.base e))))
        | Except.ok code =>
          match doSet env st1
              [⟨GoValue.vbytes code, dmsActivateMessageId,
                Asn1.fromCatalogue "dmsActivateMessage"⟩] with
          | (st2, Except.error e) =>
            (st2, GoResult.ret () (some (GoErr.wrap "dms set failed" (GoErr.base e))))
          | (st2, Except.ok sres) =>
            if sres.errorCode = 0 then
              match getSingleOID env st2 shortErrorStatusId with
              | (st3, GoResult.panicked m) => (st3, GoResult.panicked m)
              | (st3, GoResult.ret v verr) =>
                match verr with
                | some e =>
                  (st3, GoResult.ret () (some (GoErr.wrap "dms get next failed" e)))
                | none =>
                  if v.value = GoValue.vnil then (st3, GoResult.ret () none)
                  else
                    match doFormat env st3 with
                    | (st4, Except.error e) =>
                      (st4, GoResult.ret ()
                        (some (GoErr.wrap "format short error startus failed" (GoErr.base e))))
                    | (st4, Except.ok lst) =>
                      if lst = [] then (st4, GoResult.ret () none)
                      else (st4, GoResult.ret () (some (GoErr.activateMsgFailed lst)))
            else (st2, GoResult.ret () (some (GoErr.base "TO-DO")))

/-! ## The Defining dialog -/

/-- The `for result.Value.(int) != ntcip.Valid.Int()` polling loop of
`DefiningMessage`: the loop condition performs an unchecked `int` type
assertion on the most recent status value; inside the loop, an exhausted
`timeout` budget jumps to the unimplemented validation-error diagnosis
(`"TO-DO"`), otherwise one further status read is issued followed by a
one-second sleep before the budget is decremented. -/
def definingPoll (env : Env) (statusOid : String) :
    Nat → Variable → St → St × GoResult Unit
  | timeout, result, st =>
    match result.value with
    | GoValue.vint n =>
      if n = validInt then (st, GoResult.ret () none)
      else
        match timeout with
        | 0 => (st, GoResult.ret () (some (GoErr.base "TO-DO")))
        | k + 1 =>
          match getSingleOID env st statusOid with
          | (st1, GoResult.panicked m) => (st1, GoResult.panicked m)
          | (st1, GoResult.ret v verr) =>
            match verr with
            | some e =>
              (st1, GoResult.ret () (some (GoErr.wrap "get message status failed" e)))
            | none =>
              definingPoll env statusOid k v ⟨st1.g, st1.s, st1.f, st1.tr ++ [Event.sleepEv 1]⟩
    | _ => (st, GoResult.panicked "interface conversion")

/-- `DefiningMessage`: write status `modifyReq`, read status back (aborting
with a descriptive mismatch error unless it equals `modifying`), write the
MULTI string / owner / run-time priority batch, the beacon, the pixel
service, then status `validateReq`, and finally poll the status with a budget
of 10 attempts. -/
def definingMessage (env : Env) (messageMemoryType messageNumber : Int)
    (mutiString ownerAddress : String) (priority beacon pixelService : Int) :
    St × GoResult Unit :=
  match env.connectErr with
  | some e => (st0, GoResult.ret () (some (GoErr.base e)))
  | none =>
    let statusOid := dmsMessageStatusId messageMemoryType messageNumber
    match doSet env st0 [⟨GoValue.vint modifyReqInt, statusOid, Asn1.integer⟩] with
    | (st1, Except.error e) =>
      (st1, GoResult.ret () (some (GoErr.wrap "set message status failed" (GoErr.base e))))
    | (st1, Except.ok _) =>
      match getSingleOID env st1 statusOid with
      | (st2, GoResult.panicked m) => (st2, GoResult.panicked m)
      | (st2, GoResult.ret result rerr) =>
        match rerr with
        | some e =>
          (st2, GoResult.ret () (some (GoErr.wrap "get message status failed" e)))
        | none =>
          match result.value with
          | GoValue.vint n =>
            if n ≠ modifyingInt then
              (st2, GoResult.ret () (some (GoErr.statusWrongValue n modifyingInt)))
            else
              match doSet env st2
                  [⟨GoValue.vstr mutiString,
                    dmsMessageMultiStringId messageMemoryType messageNumber,
                    Asn1.fromCatalogue "dmsMessageMultiString"⟩,
                   ⟨GoValue.vstr ownerAddress,
                    dmsMessageOwnerId messageMemoryType messageNumber,
                    Asn1.fromCatalogue "dmsMessageOwner"⟩,
                   ⟨GoValue.vint priority,
                    dmsMessageRunTimePriorityId messageMemoryType messageNumber,
                    Asn1.fromCatalogue "dmsMessageRunTimePriority"⟩] with
              | (st3, Except.error e) =>
                (st3, GoResult.ret () (some (GoErr.wrap "set mutiString failed" (GoErr.base e))))
              | (st3, Except.ok _) =>
                match doSet env st3
                    [⟨GoValue.vint beacon,
                      dmsMessageBeaconId messageMemoryType messageNumber,
                      Asn1.fromCatalogue "dmsMessageBeacon"⟩] with
                | (st4, Except.error e) =>
                  (st4, GoResult.ret () (some (GoErr.wrap "set beacon failed" (GoErr.base e))))
                | (st4, Except.ok _) =>
                  match doSet env st4
                      [⟨GoValue.vint pixelService,
                        dmsMessagePixelServiceId messageMemoryType messageNumber,
                        Asn1.fromCatalogue "dmsMessagePixelService"⟩] with
                  | (st5, Except.error e) =>
                    (st5, GoResult.ret () (some (GoErr.wrap "set pixel service failed" (GoErr.base e))))
                  | (st5, Except.ok _) =>
                    match doSet env st5
                        [⟨GoValue.vint validateReqInt, statusOid, Asn1.integer⟩] with
                    | (st6, Except.error e) =>
                      (st6, GoResult.ret () (some (GoErr.wrap "set message status failed" (GoErr.base e))))
                    | (st6, Except.ok _) =>
                      definingPoll env statusOid 10 result st6
          | _ => (st2, GoResult.panicked "interface conversion")

/-! ## The Retrieving dialog -/

/-- The record returned by `RetrievingMessage` (`retrievingResult`); the two
string fields are represented by their byte sequences. -/
structure RetrievingResult where
  dmsMessageMultiString : List Nat
  dmsMessageOwner : List Nat
  dmsMessageRunTimePriority : Int
  dmsMessageStatus : Int
  dmsMessageBeacon : Int
  dmsMessagePixelService : Int
  deriving DecidableEq, Repr

/-- The Go zero value of `retrievingResult`. -/
def zeroRetrievingResult : RetrievingResult := ⟨[], [], 0, 0, 0, 0⟩

/-- Outcome of `RetrievingMessage`'s loop over the variables of the initial
batched response. -/
inductive RetrVarsOutcome where
  | done (r : RetrievingResult)
  | panicked (msg : String)
  deriving DecidableEq, Repr

/-- The `switch variable.Name` loop of `RetrievingMessage`: each of the four
expected names stores the variable's value through an unchecked type
assertion; a variable with any other name is skipped (this switch has no
default case). -/
def procRetrVars (msId ownId prId stId : String) (acc : RetrievingResult) :
    List Variable → RetrVarsOutcome
  | [] => RetrVarsOutcome.done acc
  | v :: rest =>
    if v.name = msId then
      match v.value with
      | GoValue.vbytes bs =>
        procRetrVars msId ownId prId stId {acc with dmsMessageMultiString := bs} rest
      | _ => RetrVarsOutcome.panicked "interface conversion"
    else if v.name = ownId then
      match v.value with
      | GoValue.vbytes bs =>
        procRetrVars msId ownId prId stId {acc with dmsMessageOwner := bs} rest
      | _ => RetrVarsOutcome.panicked "interface conversion"
    else if v.name = prId then
      match v.value with
      | GoValue.vint k =>
        procRetrVars msId ownId prId stId {acc with dmsMessageRunTimePriority := k} rest
      | _ => RetrVarsOutcome.panicked "interface conversion"
    else if v.name = stId then
      match v.value with
      | GoValue.vint k =>
        procRetrVars msId ownId prId stId {acc with dmsMessageStatus := k} rest
      | _ => RetrVarsOutcome.panicked "interface conversion"
    else procRetrVars msId ownId prId stId acc rest

/-- `RetrievingMessage`: batched read of MULTI string / owner / run-time
priority / status, then two best-effort single-parameter reads of the beacon
and the pixel service whose errors are discarded (the two `if err != nil`
checks after them test the stale, already-nil `err` and are dead branches) and
whose values are stored only when an `int` type check succeeds. -/
def retrievingMessage (env : Env) (messageMemoryType messageNumber : Int) :
    St × GoResult RetrievingResult :=
  match env.connectErr with
  | some e => (st0, GoResult.ret zeroRetrievingResult (some (GoErr.base e)))
  | none =>
    let msId := dmsMessageMultiStringId messageMemoryType messageNumber
    let ownId := dmsMessageOwnerId messageMemoryType messageNumber
    let prId := dmsMessageRunTimePriorityId messageMemoryType messageNumber
    let stId := dmsMessageStatusId messageMemoryType messageNumber
    match doGet env st0 [msId, ownId, prId, stId] with
    | (st1, Except.error e) =>
      (st1, GoResult.ret zeroRetrievingResult
        (some (GoErr.wrap "get dmsMessageMultiString failed" (GoErr.base e))))
    | (st1, Except.ok resp) =>
      match procRetrVars msId ownId prId stId zeroRetrievingResult resp.vars with
      | RetrVarsOutcome.panicked m => (st1, GoResult.panicked m)
      | RetrVarsOutcome.done acc =>
        match getSingleOID env st1 (dmsMessageBeaconId messageMemoryType messageNumber) with
        | (st2, GoResult.panicked m) => (st2, GoResult.panicked m)
        | (st2, GoResult.ret v _) =>
          let acc2 := match v.value with
            | GoValue.vint k => {acc with dmsMessageBeacon := k}
            | _ => acc
          match getSingleOID env st2
              (dmsMessagePixelServiceId messageMemoryType messageNumber) with
          | (st3, GoResult.panicked m) => (st3, GoResult.panicked m)
          | (st3, GoResult.ret w _) =>
            let acc3 := match w.value with
              | GoValue.vint k => {acc2 with dmsMessagePixelService := k}
              | _ => acc2
            (st3, GoResult.ret acc3 none)

/-! ## Concrete transport behaviours used as witnesses and counterexamples -/

/-- A behaviour that connects, answers the `k`-th call of each kind from a
finite script, and answers transport error `"unexpected"` past the script's
end. -/
def envOf (gets : List (Except String GetResp)) (sets : List (Except String SetResp))
    (formats : List (Except String (List String))) : Env :=
  ⟨none,
   fun k => gets.getD k (Except.error "unexpected"),
   fun k => sets.getD k (Except.error "unexpected"),
   fun k => formats.getD k (Except.error "unexpected")⟩

/-- A behaviour whose batched read answers only the MULTI-string and beacon
variables — the pixel-service field is missing — and which accepts the
activation write and reports an empty short-error-status. -/
def c2Env : Env :=
  envOf
    [Except.ok ⟨[⟨dmsMessageMultiStringId 4 5, GoValue.vbytes fixtureMulti⟩,
                 ⟨dmsMessageBeaconId 4 5, GoValue.vint 0⟩]⟩,
     Except.ok ⟨[⟨shortErrorStatusId, GoValue.vint 0⟩]⟩]
    [Except.ok ⟨0⟩]
    [Except.ok []]

/-- A behaviour whose batched read contains a variable with an unexpected
name. -/
def c2wEnv : Env :=
  envOf [Except.ok ⟨[⟨"bogus", GoValue.vnil⟩]⟩] [] []

/-- A behaviour for the Defining dialog whose post-`modifyReq` status read
answers `notUsed(1)` instead of `modifying(2)`. -/
def c4Env : Env :=
  envOf [Except.ok ⟨[⟨dmsMessageStatusId 4 5, GoValue.vint 1⟩]⟩] [Except.ok ⟨0⟩] []

/-- The trace of the Defining dialog up to (and including) the `validateReq`
write, before the polling phase starts. -/
def c3PrefixTrace (t n : Int) (msStr own : String) (pr b ps : Int) : List Event :=
  [Event.setEv [⟨GoValue.vint modifyReqInt, dmsMessageStatusId t n, Asn1.integer⟩],
   Event.getEv [dmsMessageStatusId t n],
   Event.setEv
     [⟨GoValue.vstr msStr, dmsMessageMultiStringId t n,
       Asn1.fromCatalogue "dmsMessageMultiString"⟩,
      ⟨GoValue.vstr own, dmsMessageOwnerId t n, Asn1.fromCatalogue "dmsMessageOwner"⟩,
      ⟨GoValue.vint pr, dmsMessageRunTimePriorityId t n,
       Asn1.fromCatalogue "dmsMessageRunTimePriority"⟩],
   Event.setEv [⟨GoValue.vint b, dmsMessageBeaconId t n,
     Asn1.fromCatalogue "dmsMessageBeacon"⟩],
   Event.setEv [⟨GoValue.vint ps, dmsMessagePixelServiceId t n,
     Asn1.fromCatalogue "dmsMessagePixelService"⟩],
   Event.setEv [⟨GoValue.vint validateReqInt, dmsMessageStatusId t n, Asn1.integer⟩]]

/-- A behaviour for the Defining dialog on slot `(4, 5)` that accepts every
write and answers every status read with `modifying(2)` — so the polled
status never reaches `valid(4)`. -/
def c3Env : Env :=
  ⟨none,
   fun _ => Except.ok ⟨[⟨dmsMessageStatusId 4 5, GoValue.vint 2⟩]⟩,
   fun _ => Except.ok ⟨0⟩,
   fun _ => Except.error "unexpected"⟩

/-- A behaviour for the Activating dialog on slot `(4, 5)` that answers the
batched read with the fixture message, accepts the activation write with
`noError`, answers the short-error-status read with a non-nil value, and
formats it to the one-element list `["overTemp"]`. -/
def c5Env : Env :=
  envOf
    [Except.ok ⟨[⟨dmsMessageMultiStringId 4 5, GoValue.vbytes fixtureMulti⟩,
                 ⟨dmsMessageBeaconId 4 5, GoValue.vint 0⟩,
                 ⟨dmsMessagePixelServiceId 4 5, GoValue.vint 0⟩]⟩,
     Except.ok ⟨[⟨shortErrorStatusId, GoValue.vint 99⟩]⟩]
    [Except.ok ⟨0⟩]
    [Except.ok ["overTemp"]]

/-- A behaviour for the Activating dialog on slot `(4, 5)` that answers the
batched read with the fixture message and rejects the activation write with
the SNMP error code `genErr(5)`. -/
def c6Env : Env :=
  envOf
    [Except.ok ⟨[⟨dmsMessageMultiStringId 4 5, GoValue.vbytes fixtureMulti⟩,
                 ⟨dmsMessageBeaconId 4 5, GoValue.vint 0⟩,
                 ⟨dmsMessagePixelServiceId 4 5, GoValue.vint 0⟩]⟩]
    [Except.ok ⟨5⟩]
    []

/-- A behaviour for the Retrieving dialog on slot `(4, 5)`: the main batched
read answers all four fields, the optional beacon read fails with a transport
error, and the optional pixel-service read answers a non-numeric value. -/
def c7Env : Env :=
  envOf
    [Except.ok ⟨[⟨dmsMessageMultiStringId 4 5, GoValue.vbytes [72]⟩,
                 ⟨dmsMessageOwnerId 4 5, GoValue.vbytes [79]⟩,
                 ⟨dmsMessageRunTimePriorityId 4 5, GoValue.vint 1⟩,
                 ⟨dmsMessageStatusId 4 5, GoValue.vint 4⟩]⟩,
     Except.error "boom",
     Except.ok ⟨[⟨dmsMessagePixelServiceId 4 5, GoValue.vstr "unsupported"⟩]⟩]
    [] []

/-- A behaviour whose one read succeeds with an empty variable list. -/
def c8Env : Env := envOf [Except.ok ⟨[]⟩] [] []

/-- A behaviour whose every read succeeds with one variable. -/
def c8GoodEnv : Env :=
  ⟨none, fun _ => Except.ok ⟨[⟨"a", GoValue.vint 0⟩]⟩,
   fun _ => Except.error "halt", fun _ => Except.error "halt"⟩

/-- A behaviour answering the Defining dialog's status read with a string
value instead of the declared integer. -/
def c9DefEnv : Env :=
  ⟨none, fun _ => Except.ok ⟨[⟨dmsMessageStatusId 4 5, GoValue.vstr "surprise"⟩]⟩,
   fun _ => Except.ok ⟨0⟩, fun _ => Except.error "halt"⟩

/-- A behaviour answering the Activating dialog's batched read with an
integer in the MULTI-string field instead of the declared byte string. -/
def c9ActEnv : Env :=
  envOf [Except.ok ⟨[⟨dmsMessageMultiStringId 4 5, GoValue.vint 7⟩]⟩] [] []

/-- A behaviour whose first read answers a nil value and whose second read
answers a variable named by the requested identifier. -/
def c10Env : Env :=
  envOf [Except.ok ⟨[⟨"b", GoValue.vnil⟩]⟩,
         Except.ok ⟨[⟨"oid7", GoValue.vint 3⟩]⟩] [] []

/-- A variable that the `switch` of `ActivatingMessage` consumes without
stopping: one of the three expected names, carrying a value of the type the
corresponding unchecked type assertion requires, listed in the order the
name comparisons are made. -/
def wellTypedVar (msId bId psId : String) (v : Variable) : Prop :=
  (v.name = msId ∧ ∃ bs, v.value = GoValue.vbytes bs) ∨
  (v.name ≠ msId ∧ v.name = bId ∧ ∃ k, v.value = GoValue.vint k) ∨
  (v.name ≠ msId ∧ v.name ≠ bId ∧ v.name = psId ∧ ∃ k, v.value = GoValue.vint k)

end Godms

namespace Godms

/-- `strings.Contains s s` always holds. -/
theorem goContains_self (s : String) : goContains s s = true :=
  decide_eq_true ⟨[], [], by simp⟩

/-- Two appends are distinct when their first components differ at a common
position. -/
theorem strPrefix_ne (P Q x y : String) (i : Nat)
    (h₁ : i < P.data.length) (h₂ : i < Q.data.length)
    (hne : P.data[i]? ≠ Q.data[i]?) :
    P ++ x ≠ Q ++ y := by
  intro h
  apply hne
  have hd := congrArg String.data h
  rw [String.data_append, String.data_append] at hd
  calc P.data[i]? = (P.data ++ x.data)[i]? := (List.getElem?_append_left h₁).symm
    _ = (Q.data ++ y.data)[i]? := by rw [hd]
    _ = Q.data[i]? := List.getElem?_append_left h₂

/-- The beacon and MULTI-string identifiers of one message slot differ. -/
theorem bId_ne_msId (t n : Int) :
    dmsMessageBeaconId t n ≠ dmsMessageMultiStringId t n :=
  strPrefix_ne _ _ _ _ 10 (by decide) (by decide) (by decide)

/-- The pixel-service and MULTI-string identifiers of one message slot
differ. -/
theorem psId_ne_msId (t n : Int) :
    dmsMessagePixelServiceId t n ≠ dmsMessageMultiStringId t n :=
  strPrefix_ne _ _ _ _ 10 (by decide) (by decide) (by decide)

/-- The pixel-service and beacon identifiers of one message slot differ. -/
theorem psId_ne_bId (t n : Int) :
    dmsMessagePixelServiceId t n ≠ dmsMessageBeaconId t n :=
  strPrefix_ne _ _ _ _ 10 (by decide) (by decide) (by decide)

/-- The variable loop of `ActivatingMessage` reaches its default case — the
`"no avaliable results"` outcome — whenever an unexpectedly named variable
follows a run of well-typed expected variables, whatever the accumulated
values. -/
theorem procVars_noAvailable (msId bId psId : String) :
    ∀ (pre : List Variable) (v : Variable) (rest : List Variable)
      (ms : List Nat) (b ps : Int),
      (∀ w ∈ pre, wellTypedVar msId bId psId w) →
      v.name ≠ msId → v.name ≠ bId → v.name ≠ psId →
      procVars msId bId psId ms b ps (pre ++ v :: rest) = VarsOutcome.noAvailable := by
  intro pre
  induction pre with
  | nil =>
    intro v rest ms b ps _ h1 h2 h3
    simp [procVars, h1, h2, h3]
  | cons w pre ih =>
    intro v rest ms b ps hpre h1 h2 h3
    have hw := hpre w (by simp)
    have hrest : ∀ u ∈ pre, wellTypedVar msId bId psId u :=
      fun u hu => hpre u (by simp [hu])
    rcases hw with ⟨hname, bs, hval⟩ | ⟨hne1, hname, k, hval⟩ | ⟨hne1, hne2, hname, k, hval⟩
    · simp only [List.cons_append, procVars, hname, hval, if_pos]
      exact ih v rest bs b ps hrest h1 h2 h3
    · simp only [List.cons_append, procVars]
      rw [if_neg hne1, if_pos hname, hval]
      exact ih v rest ms k ps hrest h1 h2 h3
    · simp only [List.cons_append, procVars]
      rw [if_neg hne1, if_neg hne2, if_pos hname, hval]
      exact ih v rest ms b k hrest h1 h2 h3

/-- Claim C1: encoding the literal fixture — MULTI string
`"[jp3]TEST [fl]Flashing[/fl]"`, beacon 0, pixel service 0, memory type 4,
duration 267, priority 55, message number 5, requester address
`"103.8.9.10"` — returns, without error, exactly the 12 bytes
`01 0B 37 04 00 05 95 F9 67 08 09 0A`: big-endian duration, priority, memory
type, big-endian message number, the checksum bytes `95 F9`, and the four
IPv4 octets in address order. -/
theorem C1_encode_fixture :
    EncodeActivateMessageCode fixtureMulti 0 0 4 267 55 5 "103.8.9.10" =
      Except.ok [0x01, 0x0B, 0x37, 0x04, 0x00, 0x05, 0x95, 0xF9, 0x67, 0x08, 0x09, 0x0A] := by
  rfl

/-- Claim C2 (counterexample): a batched read response in which the
pixel-service field is missing — it answers only the MULTI-string and beacon
variables, both with their expected names — does NOT make `ActivatingMessage`
return the `"no avaliable results"` protocol error: the dialog returns
success and proceeds to issue the activation write (one `Set` was issued). -/
theorem C2_missing_field_counterexample :
    (activatingMessage c2Env 267 55 4 5).2 = GoResult.ret () none ∧
    (activatingMessage c2Env 267 55 4 5).1.s = 1 := by
  constructor
  · rfl
  · rfl

/-- Claim C2 (amended): `ActivatingMessage` returns the protocol error
`"no avaliable results"` (and issues no activation write — its whole trace is
the one batched read) exactly on responses in which some variable carries a
name other than the three expected identifiers (and the variables before it
are expected and well-typed); a response from which an expected field is
simply absent is not detected, and the dialog proceeds with zero-value
defaults for the missing fields. -/
theorem C2_unexpected_name_amended
    (env : Env) (d p t n : Int) (pre rest : List Variable) (v : Variable)
    (hconn : env.connectErr = none)
    (hget : env.getR 0 = Except.ok ⟨pre ++ v :: rest⟩)
    (hpre : ∀ w ∈ pre, wellTypedVar (dmsMessageMultiStringId t n)
      (dmsMessageBeaconId t n) (dmsMessagePixelServiceId t n) w)
    (h1 : v.name ≠ dmsMessageMultiStringId t n)
    (h2 : v.name ≠ dmsMessageBeaconId t n)
    (h3 : v.name ≠ dmsMessagePixelServiceId t n) :
    (activatingMessage env d p t n).2 =
      GoResult.ret () (some (GoErr.base "no avaliable results")) ∧
    (activatingMessage env d p t n).1.tr =
      [Event.getEv [dmsMessageMultiStringId t n, dmsMessageBeaconId t n,
        dmsMessagePixelServiceId t n]] := by
  have hproc := procVars_noAvailable (dmsMessageMultiStringId t n)
    (dmsMessageBeaconId t n) (dmsMessagePixelServiceId t n)
    pre v rest [] 0 0 hpre h1 h2 h3
  simp only [activatingMessage, hconn, doGet, st0, hget, hproc]
  exact ⟨trivial, rfl⟩

/-- Claim C2 (witness for the amended theorem): on a behaviour whose batched
response holds a single variable named `"bogus"`, the dialog returns the
`"no avaliable results"` error and its trace is the one batched read. -/
theorem C2_unexpected_name_amended_witness :
    (activatingMessage c2wEnv 1 1 4 5).2 =
      GoResult.ret () (some (GoErr.base "no avaliable results")) ∧
    (activatingMessage c2wEnv 1 1 4 5).1.tr =
      [Event.getEv [dmsMessageMultiStringId 4 5, dmsMessageBeaconId 4 5,
        dmsMessagePixelServiceId 4 5]] :=
  C2_unexpected_name_amended c2wEnv 1 1 4 5 [] [] ⟨"bogus", GoValue.vnil⟩
    rfl rfl (by intro w hw; cases hw) (by decide) (by decide) (by decide)

/-- When every polled status value differs from `valid`, the polling loop of
`DefiningMessage` with budget `m` issues exactly `m` status reads, each
followed by a one-second sleep, and terminates with the `"TO-DO"`
unimplemented-diagnosis error. -/
theorem definingPoll_timeout (env : Env) (oid : String) (vals : Nat → Int)
    (hvals : ∀ k, vals k ≠ validInt) :
    ∀ (m : Nat) (st : St) (v : Variable) (i : Int),
      v.value = GoValue.vint i → i ≠ validInt →
      (∀ k, st.g ≤ k → k < st.g + m →
        env.getR k = Except.ok ⟨[⟨oid, GoValue.vint (vals k)⟩]⟩) →
      definingPoll env oid m v st =
        (⟨st.g + m, st.s, st.f,
          st.tr ++ (List.replicate m [Event.getEv [oid], Event.sleepEv 1]).flatten⟩,
         GoResult.ret () (some (GoErr.base "TO-DO"))) := by
  intro m
  induction m with
  | zero =>
    intro st v i hv hi _
    simp [definingPoll, hv, hi]
  | succ m ih =>
    intro st v i hv hi hget
    have hg := hget st.g (Nat.le_refl _) (by omega)
    have hrec := ih ⟨st.g + 1, st.s, st.f, st.tr ++ [Event.getEv [oid]] ++ [Event.sleepEv 1]⟩
      ⟨oid, GoValue.vint (vals st.g)⟩ (vals st.g) rfl (hvals st.g)
      (fun k hk1 hk2 => by
        have h1 : st.g + 1 ≤ k := hk1
        have h2 : k < st.g + 1 + m := hk2
        exact hget k (by omega) (by omega))
    simp [definingPoll, hv, hi, hvals, getSingleOID, doGet, hg, goContains_self] at hrec ⊢
    rw [hrec]
    have hgoal : st.g + 1 + m = st.g + (m + 1) := by omega
    simp [hgoal, List.replicate_succ, List.append_assoc]

/-- Claim C3: in `DefiningMessage`, for every transport behaviour that
accepts all five writes, answers the initial status read with `modifying` and
answers every polled status read with a value that never equals `valid`, the
call terminates with the distinguishable timeout/unimplemented-diagnosis
error `"TO-DO"`, having issued 11 reads in total — the one initial status
read plus exactly 10 status reads in the polling phase — the trace showing
one polled read per attempt, each followed by the one-second sleep. -/
theorem C3_defining_poll_timeout
    (env : Env) (t n : Int) (msStr own : String) (pr b ps : Int)
    (rs : Nat → SetResp) (vals : Nat → Int)
    (hconn : env.connectErr = none)
    (hset : ∀ k, k ≤ 4 → env.setR k = Except.ok (rs k))
    (hget : ∀ k, k ≤ 10 →
      env.getR k = Except.ok ⟨[⟨dmsMessageStatusId t n, GoValue.vint (vals k)⟩]⟩)
    (h0 : vals 0 = modifyingInt)
    (hvals : ∀ k, vals k ≠ validInt) :
    definingMessage env t n msStr own pr b ps =
      (⟨11, 5, 0, c3PrefixTrace t n msStr own pr b ps ++
          (List.replicate 10
            [Event.getEv [dmsMessageStatusId t n], Event.sleepEv 1]).flatten⟩,
       GoResult.ret () (some (GoErr.base "TO-DO"))) := by
  have hs0 := hset 0 (by omega)
  have hs1 := hset 1 (by omega)
  have hs2 := hset 2 (by omega)
  have hs3 := hset 3 (by omega)
  have hs4 := hset 4 (by omega)
  have hg0 := hget 0 (by omega)
  have hpoll := definingPoll_timeout env (dmsMessageStatusId t n) vals hvals 10
    ⟨1, 5, 0, c3PrefixTrace t n msStr own pr b ps⟩
    ⟨dmsMessageStatusId t n, GoValue.vint (vals 0)⟩ (vals 0) rfl (hvals 0)
    (fun k hk1 hk2 => by
      have h1 : (1 : Nat) ≤ k := hk1
      have h2 : k < 1 + 10 := hk2
      exact hget k (by omega))
  simp only [h0] at hpoll
  simp [definingMessage, hconn, doSet, doGet, st0, getSingleOID, hs0, hs1, hs2, hs3, hs4,
    hg0, h0, goContains_self, modifyingInt, c3PrefixTrace] at hpoll ⊢
  rw [hpoll]

/-- Claim C3 (witness): on a behaviour that accepts every write and answers
every status read with `modifying(2)`, the Defining dialog for slot `(4, 5)`
ends in the `"TO-DO"` diagnosis error after 11 reads, 10 of them polled. -/
theorem C3_defining_poll_timeout_witness :
    definingMessage c3Env 4 5 "multi" "10.0.0.1" 1 0 0 =
      (⟨11, 5, 0, c3PrefixTrace 4 5 "multi" "10.0.0.1" 1 0 0 ++
          (List.replicate 10
            [Event.getEv [dmsMessageStatusId 4 5], Event.sleepEv 1]).flatten⟩,
       GoResult.ret () (some (GoErr.base "TO-DO"))) :=
  C3_defining_poll_timeout c3Env 4 5 "multi" "10.0.0.1" 1 0 0 (fun _ => ⟨0⟩) (fun _ => 2)
    rfl (fun _ _ => rfl) (fun _ _ => rfl) rfl
    (fun k => by show (2 : Int) ≠ validInt; decide)

/-- Claim C4: in `DefiningMessage`, whenever the status read issued after the
`modifyReq` write returns a value other than `modifying`, the dialog returns
the descriptive mismatch error carrying the read value and the expected
`modifying` value, and its whole trace is the `modifyReq` write followed by
the status read — so no MULTI-string/owner/priority write, no beacon write,
no pixel-service write and no `validateReq` write is ever issued. -/
theorem C4_defining_mismatch_aborts
    (env : Env) (t n : Int) (ms own : String) (pr b ps : Int) (r : SetResp) (m : Int)
    (hconn : env.connectErr = none)
    (hset : env.setR 0 = Except.ok r)
    (hget : env.getR 0 = Except.ok ⟨[⟨dmsMessageStatusId t n, GoValue.vint m⟩]⟩)
    (hm : m ≠ modifyingInt) :
    definingMessage env t n ms own pr b ps =
      (⟨1, 1, 0,
        [Event.setEv [⟨GoValue.vint modifyReqInt, dmsMessageStatusId t n, Asn1.integer⟩],
         Event.getEv [dmsMessageStatusId t n]]⟩,
       GoResult.ret () (some (GoErr.statusWrongValue m modifyingInt))) := by
  simp [definingMessage, hconn, doSet, st0, hget, hset, getSingleOID, doGet,
    goContains_self, hm]

/-- Claim C4 (witness): on a behaviour whose status read answers
`notUsed(1)`, the Defining dialog stops after the `modifyReq` write and the
status read with the mismatch error. -/
theorem C4_defining_mismatch_aborts_witness :
    definingMessage c4Env 4 5 "multi" "10.0.0.1" 1 0 0 =
      (⟨1, 1, 0,
        [Event.setEv [⟨GoValue.vint modifyReqInt, dmsMessageStatusId 4 5, Asn1.integer⟩],
         Event.getEv [dmsMessageStatusId 4 5]]⟩,
       GoResult.ret () (some (GoErr.statusWrongValue 1 modifyingInt))) :=
  C4_defining_mismatch_aborts c4Env 4 5 "multi" "10.0.0.1" 1 0 0 ⟨0⟩ 1
    rfl rfl rfl (by decide)

/-- Claim C5: in `ActivatingMessage`, when the activation write completes
with SNMP error code `noError`, then — first part — if the short-error-status
read yields a non-nil value whose formatted list is `lst`, the call returns
success exactly when `lst` is empty and otherwise returns the failure error
carrying `lst` verbatim; and — second part — if the read yields no value
(nil, on both the read and its retry), the call returns success. -/
theorem C5_activation_noerror_branch
    (env : Env) (d p t n b ps : Int) (ms code : List Nat)
    (hconn : env.connectErr = none)
    (hget0 : env.getR 0 = Except.ok
      ⟨[⟨dmsMessageMultiStringId t n, GoValue.vbytes ms⟩,
        ⟨dmsMessageBeaconId t n, GoValue.vint b⟩,
        ⟨dmsMessagePixelServiceId t n, GoValue.vint ps⟩]⟩)
    (henc : EncodeActivateMessageCode ms b ps t d p n "127.0.0.1" = Except.ok code)
    (hset0 : env.setR 0 = Except.ok ⟨0⟩) :
    (∀ (serName : String) (sv : GoValue) (lst : List String),
      env.getR 1 = Except.ok ⟨[⟨serName, sv⟩]⟩ →
      goContains serName shortErrorStatusId = true →
      sv ≠ GoValue.vnil →
      env.formatR 0 = Except.ok lst →
      (activatingMessage env d p t n).2 =
        (if lst = [] then GoResult.ret () none
         else GoResult.ret () (some (GoErr.activateMsgFailed lst)))) ∧
    (∀ (serName serName2 : String),
      env.getR 1 = Except.ok ⟨[⟨serName, GoValue.vnil⟩]⟩ →
      env.getR 2 = Except.ok ⟨[⟨serName2, GoValue.vnil⟩]⟩ →
      goContains serName2 shortErrorStatusId = true →
      (activatingMessage env d p t n).2 = GoResult.ret () none) := by
  constructor
  · intro serName sv lst hg1 hcont hsv hfmt
    by_cases hl : lst = [] <;>
      simp [activatingMessage, hconn, doGet, doSet, doFormat, st0, hget0, henc, hset0,
        hg1, hcont, hsv, hfmt, hl, getSingleOID, procVars,
        bId_ne_msId t n, psId_ne_msId t n, psId_ne_bId t n]
  · intro serName serName2 hg1 hg2 hcont
    simp [activatingMessage, hconn, doGet, doSet, st0, hget0, henc, hset0,
      hg1, hg2, hcont, getSingleOID, procVars,
      bId_ne_msId t n, psId_ne_msId t n, psId_ne_bId t n]

/-- Claim C5 (witness): on a behaviour whose short-error-status formats to
`["overTemp"]`, the Activating dialog fails carrying that list verbatim. -/
theorem C5_activation_noerror_branch_witness :
    (activatingMessage c5Env 267 55 4 5).2 =
      GoResult.ret () (some (GoErr.activateMsgFailed ["overTemp"])) := by
  have h := (C5_activation_noerror_branch c5Env 267 55 4 5 0 0 fixtureMulti
    [0x01, 0x0B, 0x37, 0x04, 0x00, 0x05, 0x95, 0xF9, 0x7F, 0x00, 0x00, 0x01]
    rfl rfl (by rfl) rfl).1 shortErrorStatusId (GoValue.vint 99) ["overTemp"]
    rfl (goContains_self shortErrorStatusId) (by decide) rfl
  simpa using h

/-- Claim C6: in `ActivatingMessage`, whenever the activation write's
response carries an SNMP error code other than `noError`, the call returns
the distinct `"TO-DO"` unimplemented-diagnosis placeholder error — never
success and never a transport-error wrapping — and its whole trace is the
batched read followed by the activation write, so no error-detail parameter
is ever read. -/
theorem C6_activation_error_branch
    (env : Env) (d p t n b ps : Int) (ms code : List Nat) (ec : Nat)
    (hconn : env.connectErr = none)
    (hget0 : env.getR 0 = Except.ok
      ⟨[⟨dmsMessageMultiStringId t n, GoValue.vbytes ms⟩,
        ⟨dmsMessageBeaconId t n, GoValue.vint b⟩,
        ⟨dmsMessagePixelServiceId t n, GoValue.vint ps⟩]⟩)
    (henc : EncodeActivateMessageCode ms b ps t d p n "127.0.0.1" = Except.ok code)
    (hset0 : env.setR 0 = Except.ok ⟨ec⟩)
    (hec : ec ≠ 0) :
    activatingMessage env d p t n =
      (⟨1, 1, 0,
        [Event.getEv [dmsMessageMultiStringId t n, dmsMessageBeaconId t n,
           dmsMessagePixelServiceId t n],
         Event.setEv [⟨GoValue.vbytes code, dmsActivateMessageId,
           Asn1.fromCatalogue "dmsActivateMessage"⟩]]⟩,
       GoResult.ret () (some (GoErr.base "TO-DO"))) := by
  simp [activatingMessage, hconn, doGet, doSet, st0, hget0, henc, hset0, hec, procVars,
    bId_ne_msId t n, psId_ne_msId t n, psId_ne_bId t n]

/-- Claim C6 (witness): on a behaviour rejecting the activation write with
`genErr(5)`, the Activating dialog ends with the `"TO-DO"` placeholder after
just the batched read and the write. -/
theorem C6_activation_error_branch_witness :
    activatingMessage c6Env 267 55 4 5 =
      (⟨1, 1, 0,
        [Event.getEv [dmsMessageMultiStringId 4 5, dmsMessageBeaconId 4 5,
           dmsMessagePixelServiceId 4 5],
         Event.setEv [⟨GoValue.vbytes
           [0x01, 0x0B, 0x37, 0x04, 0x00, 0x05, 0x95, 0xF9, 0x7F, 0x00, 0x00, 0x01],
           dmsActivateMessageId, Asn1.fromCatalogue "dmsActivateMessage"⟩]]⟩,
       GoResult.ret () (some (GoErr.base "TO-DO"))) :=
  C6_activation_error_branch c6Env 267 55 4 5 0 0 fixtureMulti
    [0x01, 0x0B, 0x37, 0x04, 0x00, 0x05, 0x95, 0xF9, 0x7F, 0x00, 0x00, 0x01] 5
    rfl rfl (by rfl) rfl (by decide)

/-- A terminal `done` of the Retrieving dialog's variable loop leaves the
beacon and pixel-service fields of the accumulator untouched: the four
switch cases only ever store the other four fields. -/
theorem procRetrVars_preserves_optional (msId ownId prId stId : String) :
    ∀ (l : List Variable) (acc acc2 : RetrievingResult),
      procRetrVars msId ownId prId stId acc l = RetrVarsOutcome.done acc2 →
      acc2.dmsMessageBeacon = acc.dmsMessageBeacon ∧
      acc2.dmsMessagePixelService = acc.dmsMessagePixelService := by
  intro l
  induction l with
  | nil =>
    intro acc acc2 h
    simp only [procRetrVars, RetrVarsOutcome.done.injEq] at h
    subst h
    exact ⟨rfl, rfl⟩
  | cons v rest ih =>
    intro acc acc2 h
    simp only [procRetrVars] at h
    repeat' split at h
    all_goals first
      | exact absurd h (by simp)
      | simpa using ih _ _ h

/-- Claim C7: in `RetrievingMessage`, whenever each of the two optional
single-parameter reads (beacon, then pixel service) returns — without
panicking — a value that is not an integer (which covers a nil value and the
zero-value result accompanying a transport error on those reads), the call
returns success carrying the record computed from the main batched response,
and that record's beacon and pixel-service fields are at their zero
defaults. -/
theorem C7_retrieving_optional_leniency
    (env : Env) (t n : Int) (acc : RetrievingResult) (resp : GetResp)
    (stB stP : St) (vB vP : Variable) (eB eP : Option GoErr)
    (hconn : env.connectErr = none)
    (hget0 : env.getR 0 = Except.ok resp)
    (hproc : procRetrVars (dmsMessageMultiStringId t n) (dmsMessageOwnerId t n)
      (dmsMessageRunTimePriorityId t n) (dmsMessageStatusId t n)
      zeroRetrievingResult resp.vars = RetrVarsOutcome.done acc)
    (hB : getSingleOID env
      ⟨1, 0, 0, [Event.getEv [dmsMessageMultiStringId t n, dmsMessageOwnerId t n,
        dmsMessageRunTimePriorityId t n, dmsMessageStatusId t n]]⟩
      (dmsMessageBeaconId t n) = (stB, GoResult.ret vB eB))
    (hvB : ∀ k, vB.value ≠ GoValue.vint k)
    (hP : getSingleOID env stB (dmsMessagePixelServiceId t n) = (stP, GoResult.ret vP eP))
    (hvP : ∀ k, vP.value ≠ GoValue.vint k) :
    retrievingMessage env t n = (stP, GoResult.ret acc none) ∧
    acc.dmsMessageBeacon = 0 ∧ acc.dmsMessagePixelService = 0 := by
  constructor
  · rcases hvv : vB.value with _ | k | bs | s1
    case vint => exact absurd hvv (hvB k)
    all_goals rcases hvp : vP.value with _ | k2 | bs2 | s2
    case vint => exact absurd hvp (hvP k2)
    all_goals first
      | exact absurd hvp (hvP _)
      | simp [retrievingMessage, hconn, doGet, st0, hget0, hproc, hB, hP, hvv, hvp]
  · have h := procRetrVars_preserves_optional (dmsMessageMultiStringId t n)
      (dmsMessageOwnerId t n) (dmsMessageRunTimePriorityId t n) (dmsMessageStatusId t n)
      resp.vars zeroRetrievingResult acc hproc
    simpa [zeroRetrievingResult] using h

/-- Claim C7 (witness): on a behaviour whose beacon read fails with a
transport error and whose pixel-service read answers a string, the Retrieving
dialog still succeeds with both optional fields at zero. -/
theorem C7_retrieving_optional_leniency_witness :
    retrievingMessage c7Env 4 5 =
      (⟨3, 0, 0, [Event.getEv [dmsMessageMultiStringId 4 5, dmsMessageOwnerId 4 5,
          dmsMessageRunTimePriorityId 4 5, dmsMessageStatusId 4 5],
        Event.getEv [dmsMessageBeaconId 4 5],
        Event.getEv [dmsMessagePixelServiceId 4 5]]⟩,
       GoResult.ret ⟨[72], [79], 1, 4, 0, 0⟩ none) ∧
    RetrievingResult.dmsMessageBeacon ⟨[72], [79], 1, 4, 0, 0⟩ = 0 ∧
    RetrievingResult.dmsMessagePixelService ⟨[72], [79], 1, 4, 0, 0⟩ = 0 :=
  C7_retrieving_optional_leniency c7Env 4 5 ⟨[72], [79], 1, 4, 0, 0⟩
    ⟨[⟨dmsMessageMultiStringId 4 5, GoValue.vbytes [72]⟩,
      ⟨dmsMessageOwnerId 4 5, GoValue.vbytes [79]⟩,
      ⟨dmsMessageRunTimePriorityId 4 5, GoValue.vint 1⟩,
      ⟨dmsMessageStatusId 4 5, GoValue.vint 4⟩]⟩
    ⟨2, 0, 0, [Event.getEv [dmsMessageMultiStringId 4 5, dmsMessageOwnerId 4 5,
        dmsMessageRunTimePriorityId 4 5, dmsMessageStatusId 4 5],
      Event.getEv [dmsMessageBeaconId 4 5]]⟩
    ⟨3, 0, 0, [Event.getEv [dmsMessageMultiStringId 4 5, dmsMessageOwnerId 4 5,
        dmsMessageRunTimePriorityId 4 5, dmsMessageStatusId 4 5],
      Event.getEv [dmsMessageBeaconId 4 5],
      Event.getEv [dmsMessagePixelServiceId 4 5]]⟩
    zeroVariable ⟨dmsMessagePixelServiceId 4 5, GoValue.vstr "unsupported"⟩
    (some (GoErr.base "boom")) none
    rfl rfl (by rfl) (by rfl)
    (by intro k; simp [zeroVariable])
    (by rfl)
    (by intro k; simp)

/-- Claim C8: `GetSingleOID` accesses element 0 of the response's variable
list with no guarded branch for an empty list: under the precondition that
every successful transport read response contains at least one variable it
never panics, and a successful response with an empty variable list makes it
panic with an index-out-of-range runtime error. -/
theorem C8_getSingleOID_index_precondition :
    (∀ (env : Env) (st : St) (oid : String),
      (∀ k r, env.getR k = Except.ok r → r.vars ≠ []) →
      ∀ m, (getSingleOID env st oid).2 ≠ GoResult.panicked m) ∧
    (getSingleOID c8Env st0 "oid").2 = GoResult.panicked "index out of range" := by
  constructor
  · intro env st oid hne m
    unfold getSingleOID doGet
    rcases hg : env.getR st.g with e | pr
    · simp [hg]
    · have h1 := hne _ _ hg
      rcases hpr : pr.vars with _ | ⟨v, rest⟩
      · exact absurd hpr h1
      · by_cases hv : v.value = GoValue.vnil
        · rcases hg2 : env.getR (st.g + 1) with e2 | pr2
          · simp [hg, hpr, hv, hg2]
          · have h2 := hne _ _ hg2
            rcases hpr2 : pr2.vars with _ | ⟨w, rest2⟩
            · exact absurd hpr2 h2
            · by_cases hc : goContains w.name oid <;> simp [hg, hpr, hv, hg2, hpr2, hc]
        · by_cases hc : goContains v.name oid <;> simp [hg, hpr, hv, hc]
  · rfl

/-- Claim C8 (witness): on a behaviour whose reads always answer one
variable, `GetSingleOID` does not panic. -/
theorem C8_getSingleOID_index_precondition_witness :
    (getSingleOID c8GoodEnv st0 "a").2 ≠ GoResult.panicked "index out of range" :=
  C8_getSingleOID_index_precondition.1 c8GoodEnv st0 "a"
    (fun k r h => by
      injection h with h2
      rw [← h2]
      simp)
    "index out of range"

/-- Claim C9: `DefiningMessage` and `ActivatingMessage` extract fetched
values with unchecked type assertions.  First part: when the Defining
dialog's post-`modifyReq` status read returns a value that is neither nil nor
an integer, the call ends in a runtime panic (no protocol-mismatch error is
produced).  Second part: when the Activating dialog's batched read answers
the MULTI-string field with a value that is not a byte string, the call ends
in a runtime panic. -/
theorem C9_unchecked_type_assertions :
    (∀ (env : Env) (t n : Int) (msStr own : String) (pr b ps : Int)
       (r : SetResp) (name : String) (val : GoValue),
      env.connectErr = none →
      env.setR 0 = Except.ok r →
      env.getR 0 = Except.ok ⟨[⟨name, val⟩]⟩ →
      val ≠ GoValue.vnil →
      (∀ k, val ≠ GoValue.vint k) →
      goContains name (dmsMessageStatusId t n) = true →
      (definingMessage env t n msStr own pr b ps).2 =
        GoResult.panicked "interface conversion") ∧
    (∀ (env : Env) (d p t n : Int) (rest : List Variable) (val : GoValue),
      env.connectErr = none →
      env.getR 0 = Except.ok ⟨⟨dmsMessageMultiStringId t n, val⟩ :: rest⟩ →
      (∀ bs, val ≠ GoValue.vbytes bs) →
      (activatingMessage env d p t n).2 = GoResult.panicked "interface conversion") := by
  constructor
  · intro env t n msStr own pr b ps r name val hconn hset0 hget0 hnil hint hcont
    rcases hv : val with _ | k | bs | s
    · exact absurd hv hnil
    · exact absurd hv (hint k)
    · simp [definingMessage, hconn, doSet, doGet, st0, getSingleOID, hset0, hget0,
        hcont, hv]
    · simp [definingMessage, hconn, doSet, doGet, st0, getSingleOID, hset0, hget0,
        hcont, hv]
  · intro env d p t n rest val hconn hget0 hbytes
    rcases hv : val with _ | k | bs | s
    · simp [activatingMessage, hconn, doGet, st0, hget0, procVars, hv]
    · simp [activatingMessage, hconn, doGet, st0, hget0, procVars, hv]
    · exact absurd hv (hbytes bs)
    · simp [activatingMessage, hconn, doGet, st0, hget0, procVars, hv]

/-- Claim C9 (witness): a string-valued status read makes the Defining dialog
panic, and an integer-valued MULTI-string field makes the Activating dialog
panic. -/
theorem C9_unchecked_type_assertions_witness :
    (definingMessage c9DefEnv 4 5 "m" "o" 1 0 0).2 =
      GoResult.panicked "interface conversion" ∧
    (activatingMessage c9ActEnv 1 1 4 5).2 =
      GoResult.panicked "interface conversion" :=
  ⟨C9_unchecked_type_assertions.1 c9DefEnv 4 5 "m" "o" 1 0 0 ⟨0⟩
     (dmsMessageStatusId 4 5) (GoValue.vstr "surprise")
     rfl rfl rfl (by simp) (fun k => by simp) (goContains_self _),
   C9_unchecked_type_assertions.2 c9ActEnv 1 1 4 5 [] (GoValue.vint 7)
     rfl rfl (fun bs => by simp)⟩

/-- Claim C10: first part — when `GetSingleOID`'s first read succeeds with a
first variable whose value is nil and the re-read also succeeds, the function
issues exactly one additional read of the same identifier (two in total), and
returns a `NoSuchName` error exactly when the final response's first variable
name does not contain the requested identifier, and otherwise returns that
variable.  Second part — on every behaviour whatsoever, `GetSingleOID` issues
at most two transport reads. -/
theorem C10_getSingleOID_retry_once :
    (∀ (env : Env) (st : St) (oid : String) (v w : Variable) (rest rest2 : List Variable),
      env.getR st.g = Except.ok ⟨v :: rest⟩ →
      v.value = GoValue.vnil →
      env.getR (st.g + 1) = Except.ok ⟨w :: rest2⟩ →
      getSingleOID env st oid =
        (⟨st.g + 2, st.s, st.f, st.tr ++ [Event.getEv [oid], Event.getEv [oid]]⟩,
         if goContains w.name oid then GoResult.ret w none
         else GoResult.ret zeroVariable (some (GoErr.base "NoSuchName")))) ∧
    (∀ (env : Env) (st : St) (oid : String),
      (getSingleOID env st oid).1.g ≤ st.g + 2) := by
  constructor
  · intro env st oid v w rest rest2 hg1 hv hg2
    by_cases hc : goContains w.name oid <;>
      simp [getSingleOID, doGet, hg1, hv, hg2, hc, List.append_assoc]
  · intro env st oid
    unfold getSingleOID doGet
    rcases hg : env.getR st.g with e | pr
    · simp [hg]
    · rcases hpr : pr.vars with _ | ⟨v, rest⟩
      · simp [hg, hpr]
      · by_cases hv : v.value = GoValue.vnil
        · rcases hg2 : env.getR (st.g + 1) with e2 | pr2
          · simp [hg, hpr, hv, hg2]
          · rcases hpr2 : pr2.vars with _ | ⟨w, rest2⟩
            · simp [hg, hpr, hv, hg2, hpr2]
            · by_cases hc : goContains w.name oid <;>
                simp [hg, hpr, hv, hg2, hpr2, hc]
        · by_cases hc : goContains v.name oid <;> simp [hg, hpr, hv, hc]

/-- Claim C10 (witness): on a behaviour whose first read answers a nil value,
`GetSingleOID` issues exactly the two reads and returns the second response's
first variable, whose name carries the requested identifier. -/
theorem C10_getSingleOID_retry_once_witness :
    getSingleOID c10Env st0 "oid7" =
      (⟨2, 0, 0, [Event.getEv ["oid7"], Event.getEv ["oid7"]]⟩,
       GoResult.ret ⟨"oid7", GoValue.vint 3⟩ none) := by
  have h := C10_getSingleOID_retry_once.1 c10Env st0 "oid7"
    ⟨"b", GoValue.vnil⟩ ⟨"oid7", GoValue.vint 3⟩ [] [] rfl rfl rfl
  simpa [goContains_self] using h

end Godms
